import Mathlib

/-!
Shallow embedding of `src/llm/DeepSeek-R1/convert.py`.

The script constructs an `RKLLM` object from the external `rkllm.api`
library and sequences three library calls — `load_huggingface`, `build`,
`export_rkllm` — checking each integer return status and, on a non-zero
status, printing a step-specific message and calling `exit(ret)`.

The external library is opaque; we model it as an oracle assigning an
integer status to each call (given its arguments). The script's body is
translated directly: it reads neither command-line arguments nor
environment variables, so `argv` and `env` appear as process inputs that
the body never consults. The observable outcome of a run is the sequence
of library calls made (with their arguments), the lines printed, and how
the process terminated (an explicit `exit(ret)` or falling off the end of
the module, which yields exit code 0).
-/

namespace Convert

/-- The arguments of one call into the external `rkllm` library, as made
by the script. Each constructor mirrors the signature used at the call
site in `convert.py`. -/
inductive LibCall where
  | load_huggingface (model : String) (model_lora : Option String) (device : String)
  | build (do_quantization : Bool) (optimization_level : Int) (quantized_dtype : String)
      (quantized_algorithm : String) (target_platform : String) (num_npu_core : Int)
  | export_rkllm (path : String)
deriving DecidableEq, Repr

/-- The opaque external library: an assignment of an integer return
status to each possible call, one field per method the script uses. -/
structure RKLLMOracle where
  load_huggingface : (model : String) → (model_lora : Option String) → (device : String) → Int
  build : (do_quantization : Bool) → (optimization_level : Int) → (quantized_dtype : String) →
      (quantized_algorithm : String) → (target_platform : String) → (num_npu_core : Int) → Int
  export_rkllm : (path : String) → Int

/-- The observable outcome of one run of the script: the library calls
made in order, the lines printed in order, and the argument of the
explicit `exit(ret)` call if one was executed (`none` when the module
body ran to completion). -/
structure ConvertResult where
  calls : List LibCall
  printed : List String
  exitCall : Option Int
deriving DecidableEq, Repr

/-- The process exit code: the argument of the explicit `exit` call when
there was one, and 0 when the module fell off the end. -/
def ConvertResult.exitCode (r : ConvertResult) : Int :=
  r.exitCall.getD 0

/-- `modelpath = 'DeepSeek-R1-Distill-Qwen-1.5B'` (convert.py line 3). -/
def modelpath : String := "DeepSeek-R1-Distill-Qwen-1.5B"

/-- The module body of `convert.py`, lines 8–25, as a function of the
process inputs (`argv`, `env`) and the external library (`llm`). The
body never consults `argv` or `env`: the script reads neither. Each
step's return status is checked against 0 exactly as in the source, with
the step's failure message and `exit(ret)` on a non-zero status. -/
def convert (argv : List String) (env : List (String × String))
    (llm : RKLLMOracle) : ConvertResult :=
  -- ret = llm.load_huggingface(model=modelpath, model_lora = None, device='cuda')
  let ret := llm.load_huggingface modelpath none "cuda"
  if ret ≠ 0 then
    { calls := [LibCall.load_huggingface modelpath none "cuda"],
      printed := ["Load model failed!"],
      exitCall := some ret }
  else
    -- ret = llm.build(do_quantization=True, optimization_level=1, quantized_dtype='w8a8',
    --                 quantized_algorithm='normal', target_platform='rk3588', num_npu_core=3)
    let ret2 := llm.build true 1 "w8a8" "normal" "rk3588" 3
    if ret2 ≠ 0 then
      { calls := [LibCall.load_huggingface modelpath none "cuda",
                  LibCall.build true 1 "w8a8" "normal" "rk3588" 3],
        printed := ["Build model failed!"],
        exitCall := some ret2 }
    else
      -- ret = llm.export_rkllm("./deepseek-r1-1.5b-w8a8.rkllm")
      let ret3 := llm.export_rkllm "./deepseek-r1-1.5b-w8a8.rkllm"
      if ret3 ≠ 0 then
        { calls := [LibCall.load_huggingface modelpath none "cuda",
                    LibCall.build true 1 "w8a8" "normal" "rk3588" 3,
                    LibCall.export_rkllm "./deepseek-r1-1.5b-w8a8.rkllm"],
          printed := ["Export model failed!"],
          exitCall := some ret3 }
      else
        { calls := [LibCall.load_huggingface modelpath none "cuda",
                    LibCall.build true 1 "w8a8" "normal" "rk3588" 3,
                    LibCall.export_rkllm "./deepseek-r1-1.5b-w8a8.rkllm"],
          printed := [],
          exitCall := none }

/-- The status the load step receives: the library's answer at the
script's fixed load arguments. -/
def loadStatus (llm : RKLLMOracle) : Int :=
  llm.load_huggingface modelpath none "cuda"

/-- The status the build step receives: the library's answer at the
script's fixed build arguments. -/
def buildStatus (llm : RKLLMOracle) : Int :=
  llm.build true 1 "w8a8" "normal" "rk3588" 3

/-- The status the export step receives: the library's answer at the
script's fixed output path. -/
def exportStatus (llm : RKLLMOracle) : Int :=
  llm.export_rkllm "./deepseek-r1-1.5b-w8a8.rkllm"

/-- An oracle whose three methods return the given constants, used to
evaluate the model at concrete inputs. -/
def constOracle (a b c : Int) : RKLLMOracle where
  load_huggingface := fun _ _ _ => a
  build := fun _ _ _ _ _ _ => b
  export_rkllm := fun _ => c

/-- An oracle whose load answer depends on the device argument, agreeing
with `constOracle 1 2 3` at the arguments the script actually passes but
not elsewhere. -/
def devOracle : RKLLMOracle where
  load_huggingface := fun _ _ device => if device = "cuda" then 1 else 99
  build := fun _ _ _ _ _ _ => 2
  export_rkllm := fun _ => 3

/-- Recognises the load call in a trace. -/
def isLoadCall : LibCall → Bool
  | LibCall.load_huggingface _ _ _ => true
  | _ => false

/-- Recognises the export call in a trace. -/
def isExportCall : LibCall → Bool
  | LibCall.export_rkllm _ => true
  | _ => false

/-- C1: whenever one of the three library calls returns a non-zero
status `r` (and that call was reached), the process exits with exit code
exactly `r`, unchanged. -/
theorem exit_code_propagates (argv : List String) (env : List (String × String))
    (llm : RKLLMOracle) :
    (loadStatus llm ≠ 0 → (convert argv env llm).exitCode = loadStatus llm) ∧
    (loadStatus llm = 0 → buildStatus llm ≠ 0 →
      (convert argv env llm).exitCode = buildStatus llm) ∧
    (loadStatus llm = 0 → buildStatus llm = 0 → exportStatus llm ≠ 0 →
      (convert argv env llm).exitCode = exportStatus llm) := by
  refine ⟨?_, ?_, ?_⟩
  · intro h
    simp only [loadStatus] at h
    simp [convert, ConvertResult.exitCode, h, loadStatus]
  · intro hl hb
    simp only [loadStatus] at hl
    simp only [buildStatus] at hb
    simp [convert, ConvertResult.exitCode, hl, hb, buildStatus]
  · intro hl hb he
    simp only [loadStatus] at hl
    simp only [buildStatus] at hb
    simp only [exportStatus] at he
    simp [convert, ConvertResult.exitCode, hl, hb, he, exportStatus]

/-- Witness for C1: a failing load propagates 7, a failing build
propagates -5, a failing export propagates 3. -/
theorem exit_code_propagates_witness :
    (convert [] [] (constOracle 7 0 0)).exitCode = 7 ∧
    (convert [] [] (constOracle 0 (-5) 0)).exitCode = -5 ∧
    (convert [] [] (constOracle 0 0 3)).exitCode = 3 :=
  ⟨(exit_code_propagates [] [] (constOracle 7 0 0)).1 (by decide),
   (exit_code_propagates [] [] (constOracle 0 (-5) 0)).2.1 (by decide) (by decide),
   (exit_code_propagates [] [] (constOracle 0 0 3)).2.2 (by decide) (by decide) (by decide)⟩

/-- C2: the trace of library calls is always a prefix of load, then
build, then export; build runs exactly when load returned 0, and export
exactly when load and build both returned 0. -/
theorem step_sequencing (argv : List String) (env : List (String × String))
    (llm : RKLLMOracle) :
    ((convert argv env llm).calls = [LibCall.load_huggingface modelpath none "cuda"] ∨
     (convert argv env llm).calls = [LibCall.load_huggingface modelpath none "cuda",
        LibCall.build true 1 "w8a8" "normal" "rk3588" 3] ∨
     (convert argv env llm).calls = [LibCall.load_huggingface modelpath none "cuda",
        LibCall.build true 1 "w8a8" "normal" "rk3588" 3,
        LibCall.export_rkllm "./deepseek-r1-1.5b-w8a8.rkllm"]) ∧
    (LibCall.build true 1 "w8a8" "normal" "rk3588" 3 ∈ (convert argv env llm).calls ↔
      loadStatus llm = 0) ∧
    (LibCall.export_rkllm "./deepseek-r1-1.5b-w8a8.rkllm" ∈ (convert argv env llm).calls ↔
      loadStatus llm = 0 ∧ buildStatus llm = 0) := by
  by_cases hl : loadStatus llm = 0
  · by_cases hb : buildStatus llm = 0
    · simp only [loadStatus] at hl
      simp only [buildStatus] at hb
      by_cases he : llm.export_rkllm "./deepseek-r1-1.5b-w8a8.rkllm" = 0 <;>
        simp [convert, loadStatus, buildStatus, hl, hb, he]
    · simp only [loadStatus] at hl
      simp only [buildStatus] at hb
      simp [convert, loadStatus, buildStatus, hl, hb]
  · simp only [loadStatus] at hl
    simp [convert, loadStatus, buildStatus, hl]

/-- C3: when all three library calls return 0, the process terminates
with exit code 0 and prints nothing. -/
theorem success_silent_zero (argv : List String) (env : List (String × String))
    (llm : RKLLMOracle) (hl : loadStatus llm = 0) (hb : buildStatus llm = 0)
    (he : exportStatus llm = 0) :
    (convert argv env llm).exitCode = 0 ∧ (convert argv env llm).printed = [] := by
  simp only [loadStatus] at hl
  simp only [buildStatus] at hb
  simp only [exportStatus] at he
  simp [convert, ConvertResult.exitCode, hl, hb, he]

/-- Witness for C3: the all-zero oracle terminates with code 0 and no
output. -/
theorem success_silent_zero_witness :
    (convert [] [] (constOracle 0 0 0)).exitCode = 0 ∧
    (convert [] [] (constOracle 0 0 0)).printed = [] :=
  success_silent_zero [] [] (constOracle 0 0 0) (by decide) (by decide) (by decide)

/-- C4: any build call appearing in the trace carries exactly the fixed
hyperparameters: quantization on, optimization level 1, dtype w8a8,
algorithm normal, platform rk3588, 3 NPU cores. -/
theorem build_args_fixed (argv : List String) (env : List (String × String))
    (llm : RKLLMOracle) (d : Bool) (ol : Int) (qd qa tp : String) (nc : Int)
    (h : LibCall.build d ol qd qa tp nc ∈ (convert argv env llm).calls) :
    d = true ∧ ol = 1 ∧ qd = "w8a8" ∧ qa = "normal" ∧ tp = "rk3588" ∧ nc = 3 := by
  by_cases hl : llm.load_huggingface modelpath none "cuda" = 0
  · by_cases hb : llm.build true 1 "w8a8" "normal" "rk3588" 3 = 0
    · by_cases he : llm.export_rkllm "./deepseek-r1-1.5b-w8a8.rkllm" = 0 <;>
        simp [convert, hl, hb, he] at h <;> exact h
    · simp [convert, hl, hb] at h
      exact h
  · simp [convert, hl] at h

/-- Witness for C4: in the all-success trace the build call is present
and its arguments are the fixed ones. -/
theorem build_args_fixed_witness :
    true = true ∧ (1 : Int) = 1 ∧ "w8a8" = "w8a8" ∧ "normal" = "normal" ∧
      "rk3588" = "rk3588" ∧ (3 : Int) = 3 :=
  build_args_fixed [] [] (constOracle 0 0 0) true 1 "w8a8" "normal" "rk3588" 3
    (by simp [convert, constOracle])

/-- C5: a step that returns a non-zero status triggers exactly its own
failure message, and the process exits immediately with that status,
having made no further library call. -/
theorem failure_message_and_stop (argv : List String) (env : List (String × String))
    (llm : RKLLMOracle) :
    (loadStatus llm ≠ 0 →
      (convert argv env llm).printed = ["Load model failed!"] ∧
      (convert argv env llm).calls = [LibCall.load_huggingface modelpath none "cuda"] ∧
      (convert argv env llm).exitCall = some (loadStatus llm)) ∧
    (loadStatus llm = 0 → buildStatus llm ≠ 0 →
      (convert argv env llm).printed = ["Build model failed!"] ∧
      (convert argv env llm).calls = [LibCall.load_huggingface modelpath none "cuda",
        LibCall.build true 1 "w8a8" "normal" "rk3588" 3] ∧
      (convert argv env llm).exitCall = some (buildStatus llm)) ∧
    (loadStatus llm = 0 → buildStatus llm = 0 → exportStatus llm ≠ 0 →
      (convert argv env llm).printed = ["Export model failed!"] ∧
      (convert argv env llm).calls = [LibCall.load_huggingface modelpath none "cuda",
        LibCall.build true 1 "w8a8" "normal" "rk3588" 3,
        LibCall.export_rkllm "./deepseek-r1-1.5b-w8a8.rkllm"] ∧
      (convert argv env llm).exitCall = some (exportStatus llm)) := by
  refine ⟨?_, ?_, ?_⟩
  · intro h
    simp only [loadStatus] at h
    simp [convert, loadStatus, h]
  · intro hl hb
    simp only [loadStatus] at hl
    simp only [buildStatus] at hb
    simp [convert, buildStatus, hl, hb]
  · intro hl hb he
    simp only [loadStatus] at hl
    simp only [buildStatus] at hb
    simp only [exportStatus] at he
    simp [convert, exportStatus, hl, hb, he]

/-- Witness for C5: each failure branch observed at a concrete oracle. -/
theorem failure_message_and_stop_witness :
    (convert [] [] (constOracle 4 0 0)).printed = ["Load model failed!"] ∧
    (convert [] [] (constOracle 0 4 0)).printed = ["Build model failed!"] ∧
    (convert [] [] (constOracle 0 0 4)).printed = ["Export model failed!"] :=
  ⟨((failure_message_and_stop [] [] (constOracle 4 0 0)).1 (by decide)).1,
   ((failure_message_and_stop [] [] (constOracle 0 4 0)).2.1 (by decide) (by decide)).1,
   ((failure_message_and_stop [] [] (constOracle 0 0 4)).2.2
      (by decide) (by decide) (by decide)).1⟩

/-- C6: once load and build have both returned 0, the trace contains
exactly one export call, and its path is the fixed output path. -/
theorem export_once_fixed_path (argv : List String) (env : List (String × String))
    (llm : RKLLMOracle) (hl : loadStatus llm = 0) (hb : buildStatus llm = 0) :
    (convert argv env llm).calls.filter isExportCall =
      [LibCall.export_rkllm "./deepseek-r1-1.5b-w8a8.rkllm"] := by
  simp only [loadStatus] at hl
  simp only [buildStatus] at hb
  by_cases he : llm.export_rkllm "./deepseek-r1-1.5b-w8a8.rkllm" = 0 <;>
    simp [convert, isExportCall, hl, hb, he]

/-- Witness for C6: the all-success trace requests exactly one export at
the fixed path. -/
theorem export_once_fixed_path_witness :
    (convert [] [] (constOracle 0 0 0)).calls.filter isExportCall =
      [LibCall.export_rkllm "./deepseek-r1-1.5b-w8a8.rkllm"] :=
  export_once_fixed_path [] [] (constOracle 0 0 0) (by decide) (by decide)

/-- C7: the run is independent of command-line arguments and environment
variables: two runs differing only in those have identical outcomes. -/
theorem argv_env_irrelevant (argv₁ : List String) (env₁ : List (String × String))
    (argv₂ : List String) (env₂ : List (String × String)) (llm : RKLLMOracle) :
    convert argv₁ env₁ llm = convert argv₂ env₂ llm := rfl

/-- C8: every run makes exactly one load call, with model name
DeepSeek-R1-Distill-Qwen-1.5B, device cuda, and no LoRA adapter. -/
theorem load_once_fixed_args (argv : List String) (env : List (String × String))
    (llm : RKLLMOracle) :
    (convert argv env llm).calls.filter isLoadCall =
      [LibCall.load_huggingface "DeepSeek-R1-Distill-Qwen-1.5B" none "cuda"] := by
  by_cases hl : llm.load_huggingface "DeepSeek-R1-Distill-Qwen-1.5B" none "cuda" = 0
  · by_cases hb : llm.build true 1 "w8a8" "normal" "rk3588" 3 = 0
    · by_cases he : llm.export_rkllm "./deepseek-r1-1.5b-w8a8.rkllm" = 0 <;>
        simp [convert, isLoadCall, modelpath, hl, hb, he]
    · simp [convert, isLoadCall, modelpath, hl, hb]
  · simp [convert, isLoadCall, modelpath, hl]

/-- C9: the outcome is a function of the three statuses alone: two
oracles answering identically at the arguments the script passes yield
identical runs. -/
theorem outcome_determined_by_statuses (argv : List String)
    (env : List (String × String)) (llm₁ llm₂ : RKLLMOracle)
    (hl : loadStatus llm₁ = loadStatus llm₂) (hb : buildStatus llm₁ = buildStatus llm₂)
    (he : exportStatus llm₁ = exportStatus llm₂) :
    convert argv env llm₁ = convert argv env llm₂ := by
  simp only [loadStatus] at hl
  simp only [buildStatus] at hb
  simp only [exportStatus] at he
  simp only [convert]
  rw [hl, hb, he]

/-- Witness for C9: a constant oracle and an oracle that inspects the
device argument, agreeing at the script's calls, produce the same run. -/
theorem outcome_determined_by_statuses_witness :
    convert [] [] (constOracle 1 2 3) = convert [] [] devOracle :=
  outcome_determined_by_statuses [] [] (constOracle 1 2 3) devOracle
    (by decide) (by decide) (by decide)

/-- C10: at most one failure message is ever printed, and a failure
message appears exactly when the run ends in an explicit exit call with
a non-zero argument. -/
theorem one_message_iff_nonzero_exit (argv : List String)
    (env : List (String × String)) (llm : RKLLMOracle) :
    (convert argv env llm).printed.length ≤ 1 ∧
    ((convert argv env llm).printed ≠ [] ↔
      ∃ c, (convert argv env llm).exitCall = some c ∧ c ≠ 0) := by
  by_cases hl : llm.load_huggingface modelpath none "cuda" = 0
  · by_cases hb : llm.build true 1 "w8a8" "normal" "rk3588" 3 = 0
    · by_cases he : llm.export_rkllm "./deepseek-r1-1.5b-w8a8.rkllm" = 0 <;>
        simp [convert, hl, hb, he]
    · simp [convert, hl, hb]
  · simp [convert, hl]

end Convert
